import Mathlib

/-!
A shallow embedding of the web-streams-polyfill core (readable stream, writable
stream and transform stream state machines) together with proofs about the
behaviour of its algorithms.  The definitions are translated from the TypeScript
sources in `src/src/lib`; asynchronous continuations (`uponPromise`,
`transformPromiseWith`) are dispatched on the already-settled outcome of the
user algorithm, which is passed in as an explicit parameter.  The settlement
primitive and the sized queue live in helper files that are not part of this
source snapshot, so they are modelled from the specification (sections 4.A and
4.B).
-/

namespace WebStreams

/-- An opaque JavaScript value: enough structure to distinguish `undefined`,
chunks, error objects and read results. -/
inductive JSVal where
  | undef
  | bool (b : Bool)
  | num (n : Int)
  | str (s : String)
  | typeError (msg : String)
  | rangeError (msg : String)
  | readResult (value : JSVal) (done : Bool)
deriving DecidableEq

/-- Modelled from the spec (section 4.B): a one-shot settlement is pending,
fulfilled with a value, or rejected with a value. -/
inductive Settlement where
  | pending
  | fulfilled (v : JSVal)
  | rejected (v : JSVal)
deriving DecidableEq

/-- A heap of settlements; a settlement is identified by its index. -/
abbrev Heap := List Settlement

/-- Modelled from the spec (section 4.B): allocate a settlement in the given
initial state and return its identifier. -/
def newPromiseWith (h : Heap) (st : Settlement) : Heap × Nat :=
  (h ++ [st], h.length)

/-- Modelled from the spec (section 4.B): allocate a fresh pending settlement. -/
def newPromise (h : Heap) : Heap × Nat :=
  newPromiseWith h .pending

/-- Modelled from the spec (section 4.B): settle the settlement `id`; resolve
and reject are ignored after the first call, so only a pending settlement
changes. -/
def settleAt (h : Heap) (id : Nat) (st : Settlement) : Heap :=
  match h.get? id with
  | some .pending => h.set id st
  | _ => h

/-- State of a readable stream, `readable-stream.ts`. -/
inductive RState where
  | readable
  | closed
  | errored
deriving DecidableEq

/-- A queue entry of the sized queue: a chunk together with its size
(`queue-with-sizes.ts`, modelled from the spec, section 4.A). -/
structure QueuePair where
  value : JSVal
  size : Int
deriving DecidableEq

/-- Combined state of a readable stream, its default controller and its
default reader (when present).  Field names follow the internal slots of
`readable-stream.ts` and `readable-stream/default-controller.ts`.  The fields
`pullCalls` and `cancelCalls` instrument the model: they count the invocations
of the user-supplied `pull` and `cancel` algorithms. -/
structure ReadableState where
  heap : Heap
  state : RState
  storedError : JSVal
  disturbed : Bool
  hasReader : Bool
  readRequests : List Nat
  closedPromise : Option Nat
  queue : List QueuePair
  queueTotalSize : Int
  started : Bool
  closeRequested : Bool
  pullAgain : Bool
  pulling : Bool
  strategyHWM : Int
  algorithmsCleared : Bool
  pullCalls : Nat
  cancelCalls : Nat
deriving DecidableEq

/-- Modelled from the spec (section 4.A): `ResetQueue` empties the queue and
sets the running total to 0. -/
def ResetQueue (s : ReadableState) : ReadableState :=
  { s with queue := [], queueTotalSize := 0 }

/-- Modelled from the spec (section 4.A): `EnqueueValueWithSize` appends the
pair and adds its size to the total; a negative size fails with a range
error. -/
def EnqueueValueWithSize (s : ReadableState) (chunk : JSVal) (size : Int) :
    Except JSVal ReadableState :=
  if size < 0 then
    .error (.rangeError "Size must be a finite, non-negative number.")
  else
    .ok { s with queue := s.queue ++ [⟨chunk, size⟩],
                 queueTotalSize := s.queueTotalSize + size }

/-- Translation of `IsReadableStreamLocked`: the stream is locked iff a reader
is attached. -/
def IsReadableStreamLocked (s : ReadableState) : Bool :=
  s.hasReader

/-- Translation of `ReadableStreamGetNumReadRequests`. -/
def ReadableStreamGetNumReadRequests (s : ReadableState) : Nat :=
  s.readRequests.length

/-- Translation of `ReadableStreamFulfillReadRequest`: shift the oldest read
request and resolve it with the read result. -/
def ReadableStreamFulfillReadRequest (s : ReadableState) (chunk : JSVal) (done : Bool) :
    ReadableState :=
  match s.readRequests with
  | [] => s
  | id :: rest =>
      { s with readRequests := rest,
               heap := settleAt s.heap id (.fulfilled (.readResult chunk done)) }

/-- Translation of `ReadableStreamDefaultControllerGetDesiredSize`: `none`
models the null returned when the stream is errored. -/
def ReadableStreamDefaultControllerGetDesiredSize (s : ReadableState) : Option Int :=
  match s.state with
  | .errored => none
  | .closed => some 0
  | .readable => some (s.strategyHWM - s.queueTotalSize)

/-- Translation of `ReadableStreamDefaultControllerCanCloseOrEnqueue`. -/
def ReadableStreamDefaultControllerCanCloseOrEnqueue (s : ReadableState) : Bool :=
  if s.closeRequested = false ∧ s.state = .readable then true else false

/-- Translation of `ReadableStreamDefaultControllerShouldCallPull`. -/
def ReadableStreamDefaultControllerShouldCallPull (s : ReadableState) : Bool :=
  if ReadableStreamDefaultControllerCanCloseOrEnqueue s = false then false
  else if s.started = false then false
  else if IsReadableStreamLocked s = true ∧ 0 < ReadableStreamGetNumReadRequests s then true
  else
    let desiredSize := ReadableStreamDefaultControllerGetDesiredSize s
    decide (0 < desiredSize.getD 0)

/-- Translation of `ReadableStreamDefaultControllerClearAlgorithms`: the
algorithm slots are released; the model records this with a flag. -/
def ReadableStreamDefaultControllerClearAlgorithms (s : ReadableState) : ReadableState :=
  { s with algorithmsCleared := true }

/-- Translation of the synchronous part of
`ReadableStreamDefaultControllerCallPullIfNeeded`; invoking the pull algorithm
is recorded in `pullCalls` (its asynchronous completion is a separate event
that no claim needs). -/
def ReadableStreamDefaultControllerCallPullIfNeeded (s : ReadableState) : ReadableState :=
  if ReadableStreamDefaultControllerShouldCallPull s = false then s
  else if s.pulling = true then { s with pullAgain := true }
  else { s with pulling := true, pullCalls := s.pullCalls + 1 }

/-- Translation of `ReadableStreamClose`: transition to closed, resolve all
pending read requests with a done result and resolve the reader closed
settlement. -/
def ReadableStreamClose (s : ReadableState) : ReadableState :=
  let s1 : ReadableState := { s with state := .closed }
  if s1.hasReader = false then s1
  else
    let h1 := s1.readRequests.foldl
      (fun h id => settleAt h id (.fulfilled (.readResult .undef true))) s1.heap
    let h2 := match s1.closedPromise with
      | some id => settleAt h1 id (.fulfilled .undef)
      | none => h1
    { s1 with heap := h2, readRequests := [] }

/-- Translation of `ReadableStreamError`: transition to errored, reject all
pending read requests and the reader closed settlement. -/
def ReadableStreamError (s : ReadableState) (e : JSVal) : ReadableState :=
  let s1 : ReadableState := { s with state := .errored, storedError := e }
  if s1.hasReader = false then s1
  else
    let h1 := s1.readRequests.foldl (fun h id => settleAt h id (.rejected e)) s1.heap
    let h2 := match s1.closedPromise with
      | some id => settleAt h1 id (.rejected e)
      | none => h1
    { s1 with heap := h2, readRequests := [] }

/-- Translation of `ReadableStreamDefaultControllerError`: a no-op unless the
stream is readable; otherwise reset the queue, clear the algorithms and error
the stream. -/
def ReadableStreamDefaultControllerError (s : ReadableState) (e : JSVal) : ReadableState :=
  if s.state ≠ .readable then s
  else
    ReadableStreamError (ReadableStreamDefaultControllerClearAlgorithms (ResetQueue s)) e

/-- Translation of `ReadableStreamDefaultControllerClose` (the internal
operation; the public method first checks `CanCloseOrEnqueue`). -/
def ReadableStreamDefaultControllerClose (s : ReadableState) : ReadableState :=
  let s1 : ReadableState := { s with closeRequested := true }
  if s1.queue = [] then
    ReadableStreamClose (ReadableStreamDefaultControllerClearAlgorithms s1)
  else s1

/-- Translation of `ReadableStreamDefaultControllerEnqueue`.  The strategy size
algorithm is passed in as a function returning either a size or a thrown
exception; the second component of the result is the exception re-thrown to
the caller, when there is one. -/
def ReadableStreamDefaultControllerEnqueue (sizeAlgorithm : JSVal → Except JSVal Int)
    (s : ReadableState) (chunk : JSVal) : ReadableState × Option JSVal :=
  if IsReadableStreamLocked s = true ∧ 0 < ReadableStreamGetNumReadRequests s then
    (ReadableStreamDefaultControllerCallPullIfNeeded
       (ReadableStreamFulfillReadRequest s chunk false), none)
  else
    match sizeAlgorithm chunk with
    | .error chunkSizeE => (ReadableStreamDefaultControllerError s chunkSizeE, some chunkSizeE)
    | .ok chunkSize =>
        match EnqueueValueWithSize s chunk chunkSize with
        | .error enqueueE => (ReadableStreamDefaultControllerError s enqueueE, some enqueueE)
        | .ok s1 => (ReadableStreamDefaultControllerCallPullIfNeeded s1, none)

/-- Translation of the `[CancelSteps]` method of the readable default
controller: reset the queue, invoke the cancel algorithm (its settled outcome
is the parameter `cancelOutcome`, and the invocation is counted), clear the
algorithms and propagate the outcome. -/
def ReadableStreamDefaultControllerCancelSteps (cancelOutcome : Except JSVal Unit)
    (s : ReadableState) : ReadableState × Except JSVal Unit :=
  let s1 := ResetQueue s
  let s2 : ReadableState := { s1 with cancelCalls := s1.cancelCalls + 1 }
  let s3 := ReadableStreamDefaultControllerClearAlgorithms s2
  (s3, cancelOutcome)

/-- Translation of `ReadableStreamCancel`: the returned settlement maps a
fulfilled cancel outcome to undefined. -/
def ReadableStreamCancel (cancelOutcome : Except JSVal Unit) (s : ReadableState)
    (_reason : JSVal) : ReadableState × Settlement :=
  let s0 : ReadableState := { s with disturbed := true }
  if s0.state = .closed then (s0, .fulfilled .undef)
  else if s0.state = .errored then (s0, .rejected s0.storedError)
  else
    let s1 := ReadableStreamClose s0
    let r := ReadableStreamDefaultControllerCancelSteps cancelOutcome s1
    (r.1, match r.2 with
          | .ok _ => .fulfilled .undef
          | .error e => .rejected e)

/-- Translation of the public method `ReadableStream.prototype.cancel`: a
locked stream yields a rejected settlement. -/
def ReadableStream_cancel (cancelOutcome : Except JSVal Unit) (s : ReadableState)
    (reason : JSVal) : ReadableState × Settlement :=
  if IsReadableStreamLocked s = true then
    (s, .rejected (.typeError "Cannot cancel a stream that already has a reader"))
  else
    ReadableStreamCancel cancelOutcome s reason

theorem callPullIfNeeded_queue (s : ReadableState) :
    (ReadableStreamDefaultControllerCallPullIfNeeded s).queue = s.queue := by
  unfold ReadableStreamDefaultControllerCallPullIfNeeded
  split <;> first | rfl | (split <;> rfl)

theorem callPullIfNeeded_queueTotalSize (s : ReadableState) :
    (ReadableStreamDefaultControllerCallPullIfNeeded s).queueTotalSize = s.queueTotalSize := by
  unfold ReadableStreamDefaultControllerCallPullIfNeeded
  split <;> first | rfl | (split <;> rfl)

theorem callPullIfNeeded_heap (s : ReadableState) :
    (ReadableStreamDefaultControllerCallPullIfNeeded s).heap = s.heap := by
  unfold ReadableStreamDefaultControllerCallPullIfNeeded
  split <;> first | rfl | (split <;> rfl)

theorem callPullIfNeeded_readRequests (s : ReadableState) :
    (ReadableStreamDefaultControllerCallPullIfNeeded s).readRequests = s.readRequests := by
  unfold ReadableStreamDefaultControllerCallPullIfNeeded
  split <;> first | rfl | (split <;> rfl)

theorem controllerError_errored (s : ReadableState) (e : JSVal) (h : s.state = .readable) :
    (ReadableStreamDefaultControllerError s e).state = .errored ∧
    (ReadableStreamDefaultControllerError s e).storedError = e := by
  unfold ReadableStreamDefaultControllerError
  rw [if_neg (by simp [h])]
  simp only [ReadableStreamError, ReadableStreamDefaultControllerClearAlgorithms, ResetQueue]
  by_cases hr : s.hasReader = false <;> simp [hr]

/-- C4: for a readable stream with a default controller, the should-pull
predicate holds iff the controller can still close-or-enqueue, the controller
has started, and either the stream is locked with a pending read request or
the desired size (high-water mark minus queue total size) is positive. -/
theorem ReadableStreamDefaultControllerShouldCallPull_iff (s : ReadableState) :
    ReadableStreamDefaultControllerShouldCallPull s = true ↔
      (ReadableStreamDefaultControllerCanCloseOrEnqueue s = true ∧ s.started = true ∧
        ((IsReadableStreamLocked s = true ∧ 0 < ReadableStreamGetNumReadRequests s) ∨
          0 < s.strategyHWM - s.queueTotalSize)) := by
  unfold ReadableStreamDefaultControllerShouldCallPull
  by_cases hc : ReadableStreamDefaultControllerCanCloseOrEnqueue s = false
  · simp [hc]
  · have hc2 : ReadableStreamDefaultControllerCanCloseOrEnqueue s = true := by
      revert hc
      cases ReadableStreamDefaultControllerCanCloseOrEnqueue s <;> simp
    have hstate : s.state = .readable := by
      unfold ReadableStreamDefaultControllerCanCloseOrEnqueue at hc2
      revert hc2
      split
      · next h => exact fun _ => h.2
      · simp
    by_cases hs : s.started = false
    · simp [hc2, hs]
    · have hs2 : s.started = true := by
        revert hs
        cases s.started <;> simp
      by_cases hl : IsReadableStreamLocked s = true ∧ 0 < ReadableStreamGetNumReadRequests s
      · simp [hc2, hs2, hl]
      · simp [hc2, hs2, hl, ReadableStreamDefaultControllerGetDesiredSize, hstate]

/-- C5: enqueue on a readable default controller in a state permitting
enqueue.  When the stream is locked with a pending read request, the chunk
resolves the oldest request and the queue and its total size are untouched;
otherwise the chunk is appended with the size computed by the strategy; a
throwing size function (or a negative size rejected by the queue) errors the
stream with that exception and re-throws it to the caller. -/
theorem ReadableStreamDefaultControllerEnqueue_spec
    (sizeAlgorithm : JSVal → Except JSVal Int) (s : ReadableState) (chunk : JSVal)
    (hcan : ReadableStreamDefaultControllerCanCloseOrEnqueue s = true) :
    (∀ id rest, s.hasReader = true → s.readRequests = id :: rest →
      (ReadableStreamDefaultControllerEnqueue sizeAlgorithm s chunk).2 = none ∧
      (ReadableStreamDefaultControllerEnqueue sizeAlgorithm s chunk).1.heap =
        settleAt s.heap id (.fulfilled (.readResult chunk false)) ∧
      (ReadableStreamDefaultControllerEnqueue sizeAlgorithm s chunk).1.readRequests = rest ∧
      (ReadableStreamDefaultControllerEnqueue sizeAlgorithm s chunk).1.queue = s.queue ∧
      (ReadableStreamDefaultControllerEnqueue sizeAlgorithm s chunk).1.queueTotalSize =
        s.queueTotalSize) ∧
    (∀ n, ¬(s.hasReader = true ∧ 0 < s.readRequests.length) →
      sizeAlgorithm chunk = .ok n → 0 ≤ n →
      (ReadableStreamDefaultControllerEnqueue sizeAlgorithm s chunk).2 = none ∧
      (ReadableStreamDefaultControllerEnqueue sizeAlgorithm s chunk).1.queue =
        s.queue ++ [⟨chunk, n⟩] ∧
      (ReadableStreamDefaultControllerEnqueue sizeAlgorithm s chunk).1.queueTotalSize =
        s.queueTotalSize + n) ∧
    (∀ e, ¬(s.hasReader = true ∧ 0 < s.readRequests.length) →
      sizeAlgorithm chunk = .error e →
      (ReadableStreamDefaultControllerEnqueue sizeAlgorithm s chunk).2 = some e ∧
      (ReadableStreamDefaultControllerEnqueue sizeAlgorithm s chunk).1.state = .errored ∧
      (ReadableStreamDefaultControllerEnqueue sizeAlgorithm s chunk).1.storedError = e) ∧
    (∀ n, ¬(s.hasReader = true ∧ 0 < s.readRequests.length) →
      sizeAlgorithm chunk = .ok n → n < 0 →
      (ReadableStreamDefaultControllerEnqueue sizeAlgorithm s chunk).2 =
        some (.rangeError "Size must be a finite, non-negative number.") ∧
      (ReadableStreamDefaultControllerEnqueue sizeAlgorithm s chunk).1.state = .errored ∧
      (ReadableStreamDefaultControllerEnqueue sizeAlgorithm s chunk).1.storedError =
        .rangeError "Size must be a finite, non-negative number.") := by
  have hstate : s.state = .readable := by
    unfold ReadableStreamDefaultControllerCanCloseOrEnqueue at hcan
    revert hcan
    split
    · next h => exact fun _ => h.2
    · simp
  refine ⟨?_, ?_, ?_, ?_⟩
  · intro id rest hr hreq
    have hguard : IsReadableStreamLocked s = true ∧ 0 < ReadableStreamGetNumReadRequests s := by
      constructor
      · exact hr
      · unfold ReadableStreamGetNumReadRequests
        rw [hreq]
        simp
    unfold ReadableStreamDefaultControllerEnqueue
    rw [if_pos hguard]
    unfold ReadableStreamFulfillReadRequest
    rw [hreq]
    simp [callPullIfNeeded_queue, callPullIfNeeded_queueTotalSize, callPullIfNeeded_heap,
          callPullIfNeeded_readRequests]
  · intro n hguard hsz hnn
    unfold ReadableStreamDefaultControllerEnqueue EnqueueValueWithSize
    rw [if_neg (fun h => hguard ⟨h.1, h.2⟩)]
    rw [hsz]
    have hlt : ¬n < 0 := by omega
    simp [hlt, callPullIfNeeded_queue, callPullIfNeeded_queueTotalSize]
  · intro e hguard hsz
    unfold ReadableStreamDefaultControllerEnqueue
    rw [if_neg (by
      intro h
      exact hguard ⟨h.1, h.2⟩)]
    rw [hsz]
    exact ⟨rfl, (controllerError_errored s e hstate).1, (controllerError_errored s e hstate).2⟩
  · intro n hguard hsz hneg
    unfold ReadableStreamDefaultControllerEnqueue EnqueueValueWithSize
    rw [if_neg (fun h => hguard ⟨h.1, h.2⟩)]
    rw [hsz]
    have h := controllerError_errored s
      (.rangeError "Size must be a finite, non-negative number.") hstate
    simp [hneg, h.1, h.2]

theorem cancel_readable_unlocked (o : Except JSVal Unit) (s : ReadableState) (r : JSVal)
    (hstate : s.state = .readable) (hlock : s.hasReader = false) :
    (ReadableStream_cancel o s r).1.state = .closed ∧
    (ReadableStream_cancel o s r).1.cancelCalls = s.cancelCalls + 1 ∧
    (ReadableStream_cancel o s r).1.hasReader = false := by
  unfold ReadableStream_cancel ReadableStreamCancel ReadableStreamClose
    ReadableStreamDefaultControllerCancelSteps ReadableStreamDefaultControllerClearAlgorithms
    ResetQueue IsReadableStreamLocked
  simp [hstate, hlock]

theorem cancel_closed (o : Except JSVal Unit) (s : ReadableState) (r : JSVal)
    (hstate : s.state = .closed) (hlock : s.hasReader = false) :
    (ReadableStream_cancel o s r).2 = .fulfilled .undef ∧
    (ReadableStream_cancel o s r).1.cancelCalls = s.cancelCalls := by
  unfold ReadableStream_cancel ReadableStreamCancel IsReadableStreamLocked
  simp [hstate, hlock]

/-- C6: on an unlocked readable stream, cancelling twice yields a second
settlement fulfilled with undefined, and the cancel algorithm of the
controller runs exactly once across both calls: the second call observes the
closed state and never reaches the cancel step. -/
theorem ReadableStream_cancel_twice (o1 o2 : Except JSVal Unit) (s : ReadableState)
    (r1 r2 : JSVal) (hstate : s.state = .readable) (hlock : s.hasReader = false) :
    ((ReadableStream_cancel o2 (ReadableStream_cancel o1 s r1).1 r2).2 =
      .fulfilled .undef) ∧
    ((ReadableStream_cancel o1 s r1).1.state = .closed) ∧
    ((ReadableStream_cancel o1 s r1).1.cancelCalls = s.cancelCalls + 1) ∧
    ((ReadableStream_cancel o2 (ReadableStream_cancel o1 s r1).1 r2).1.cancelCalls =
      s.cancelCalls + 1) := by
  obtain ⟨h1, h2, h3⟩ := cancel_readable_unlocked o1 s r1 hstate hlock
  obtain ⟨h4, h5⟩ := cancel_closed o2 (ReadableStream_cancel o1 s r1).1 r2 h1 h3
  exact ⟨h4, h1, h2, by rw [h5, h2]⟩

/-- A concrete unlocked readable stream used by witnesses. -/
def rsUnlocked : ReadableState :=
  { heap := [], state := .readable, storedError := .undef, disturbed := false,
    hasReader := false, readRequests := [], closedPromise := none,
    queue := [], queueTotalSize := 0, started := true, closeRequested := false,
    pullAgain := false, pulling := false, strategyHWM := 1, algorithmsCleared := false,
    pullCalls := 0, cancelCalls := 0 }

/-- Witness for C6 at a concrete stream. -/
theorem ReadableStream_cancel_twice_witness :
    ((ReadableStream_cancel (.ok ()) (ReadableStream_cancel (.ok ()) rsUnlocked
        (.str "r1")).1 (.str "r2")).2 = .fulfilled .undef) ∧
    ((ReadableStream_cancel (.ok ()) (ReadableStream_cancel (.ok ()) rsUnlocked
        (.str "r1")).1 (.str "r2")).1.cancelCalls = rsUnlocked.cancelCalls + 1) := by
  have h := ReadableStream_cancel_twice (.ok ()) (.ok ()) rsUnlocked (.str "r1") (.str "r2")
    (by decide) (by decide)
  exact ⟨h.1, h.2.2.2⟩

/-- A concrete locked readable stream with one pending read request, used by
the witness for C5. -/
def rsLockedPendingRead : ReadableState :=
  { heap := [.pending], state := .readable, storedError := .undef, disturbed := true,
    hasReader := true, readRequests := [0], closedPromise := none,
    queue := [], queueTotalSize := 0, started := true, closeRequested := false,
    pullAgain := false, pulling := false, strategyHWM := 1, algorithmsCleared := false,
    pullCalls := 0, cancelCalls := 0 }

/-- Witness for C5 at a concrete stream with a pending read request. -/
theorem ReadableStreamDefaultControllerEnqueue_spec_witness :
    (ReadableStreamDefaultControllerEnqueue (fun _ => .ok 1) rsLockedPendingRead
      (.str "a")).2 = none ∧
    (ReadableStreamDefaultControllerEnqueue (fun _ => .ok 1) rsLockedPendingRead
      (.str "a")).1.heap =
      settleAt rsLockedPendingRead.heap 0 (.fulfilled (.readResult (.str "a") false)) ∧
    (ReadableStreamDefaultControllerEnqueue (fun _ => .ok 1) rsLockedPendingRead
      (.str "a")).1.queue = rsLockedPendingRead.queue := by
  have h := (ReadableStreamDefaultControllerEnqueue_spec (fun _ => .ok 1) rsLockedPendingRead
    (.str "a") (by decide)).1 0 [] (by decide) (by decide)
  exact ⟨h.1, h.2.1, h.2.2.2.1⟩

/-- State of a writable stream, `writable-stream.ts`. -/
inductive WState where
  | writable
  | closed
  | erroring
  | errored
deriving DecidableEq

/-- A record of the writable controller queue: a write record carrying a chunk,
or the close sentinel. -/
inductive QueueRecord where
  | write (chunk : JSVal)
  | closeSentinel
deriving DecidableEq

/-- Translation of the `PendingAbortRequest` structure; the settlement is
identified by its heap index. -/
structure PendingAbortRequest where
  promiseId : Nat
  reason : JSVal
  wasAlreadyErroring : Bool
deriving DecidableEq

/-- Combined state of a writable stream, its default controller and its writer
(when present).  Field names follow the internal slots of
`writable-stream.ts`.  The writer ready and closed settlements are tracked by
value (the ready settlement is resettable, so it has no stable identity).  The
fields `abortCalls`, `writeCalls` and `closeCalls` instrument the model: they
count the invocations of the user-supplied sink algorithms. -/
structure WritableState where
  heap : Heap
  state : WState
  storedError : JSVal
  hasWriter : Bool
  writeRequests : List Nat
  inFlightWriteRequest : Option Nat
  closeRequest : Option Nat
  inFlightCloseRequest : Option Nat
  pendingAbortRequest : Option PendingAbortRequest
  backpressure : Bool
  readyPromise : Settlement
  closedPromise : Settlement
  queue : List (QueueRecord × Int)
  queueTotalSize : Int
  started : Bool
  strategyHWM : Int
  algorithmsCleared : Bool
  abortCalls : Nat
  writeCalls : Nat
  closeCalls : Nat
deriving DecidableEq

/-- Translation of `WritableStreamCloseQueuedOrInFlight`. -/
def WritableStreamCloseQueuedOrInFlight (s : WritableState) : Bool :=
  if s.closeRequest = none ∧ s.inFlightCloseRequest = none then false else true

/-- Translation of `WritableStreamHasOperationMarkedInFlight`. -/
def WritableStreamHasOperationMarkedInFlight (s : WritableState) : Bool :=
  if s.inFlightWriteRequest = none ∧ s.inFlightCloseRequest = none then false else true

/-- Translation of `WritableStreamDefaultControllerGetDesiredSize`. -/
def WritableStreamDefaultControllerGetDesiredSize (s : WritableState) : Int :=
  s.strategyHWM - s.queueTotalSize

/-- Translation of `WritableStreamDefaultControllerGetBackpressure`. -/
def WritableStreamDefaultControllerGetBackpressure (s : WritableState) : Bool :=
  decide (WritableStreamDefaultControllerGetDesiredSize s ≤ 0)

/-- Translation of `WritableStreamUpdateBackpressure`: when the writer exists
and the signal flips, the ready settlement is reset to pending or resolved. -/
def WritableStreamUpdateBackpressure (s : WritableState) (backpressure : Bool) :
    WritableState :=
  let s1 :=
    if s.hasWriter = true ∧ backpressure ≠ s.backpressure then
      if backpressure = true then { s with readyPromise := .pending }
      else { s with readyPromise := .fulfilled .undef }
    else s
  { s1 with backpressure := backpressure }

/-- Translation of `WritableStreamRejectCloseAndClosedPromiseIfNeeded`. -/
def WritableStreamRejectCloseAndClosedPromiseIfNeeded (s : WritableState) : WritableState :=
  let s1 :=
    match s.closeRequest with
    | some id =>
        { s with heap := settleAt s.heap id (.rejected s.storedError), closeRequest := none }
    | none => s
  if s1.hasWriter = true then { s1 with closedPromise := .rejected s1.storedError } else s1

/-- Modelled from the spec (section 4.A): `ResetQueue` of the writable
controller, run by its `[ErrorSteps]`. -/
def WritableStreamControllerErrorSteps (s : WritableState) : WritableState :=
  { s with queue := [], queueTotalSize := 0 }

/-- Translation of `WritableStreamFinishErroring`.  The settled outcome of the
sink abort algorithm is the parameter `abortOutcome`; the `uponPromise`
continuation on it is dispatched immediately on that outcome.  Invoking the
abort algorithm (the controller `[AbortSteps]`, which also clears the
algorithms) is counted in `abortCalls`. -/
def WritableStreamFinishErroring (abortOutcome : Except JSVal Unit)
    (s : WritableState) : WritableState :=
  let s1 : WritableState := { s with state := .errored }
  let s2 := WritableStreamControllerErrorSteps s1
  let storedError := s2.storedError
  let s3 : WritableState :=
    { s2 with
      heap := s2.writeRequests.foldl (fun h id => settleAt h id (.rejected storedError)) s2.heap,
      writeRequests := [] }
  match s3.pendingAbortRequest with
  | none => WritableStreamRejectCloseAndClosedPromiseIfNeeded s3
  | some abortRequest =>
      let s4 : WritableState := { s3 with pendingAbortRequest := none }
      if abortRequest.wasAlreadyErroring = true then
        WritableStreamRejectCloseAndClosedPromiseIfNeeded
          { s4 with heap := settleAt s4.heap abortRequest.promiseId (.rejected storedError) }
      else
        let s5 : WritableState :=
          { s4 with abortCalls := s4.abortCalls + 1, algorithmsCleared := true }
        match abortOutcome with
        | .ok _ =>
            WritableStreamRejectCloseAndClosedPromiseIfNeeded
              { s5 with heap := settleAt s5.heap abortRequest.promiseId (.fulfilled .undef) }
        | .error reason =>
            WritableStreamRejectCloseAndClosedPromiseIfNeeded
              { s5 with heap := settleAt s5.heap abortRequest.promiseId (.rejected reason) }

/-- Translation of `WritableStreamStartErroring`. -/
def WritableStreamStartErroring (abortOutcome : Except JSVal Unit) (s : WritableState)
    (reason : JSVal) : WritableState :=
  let s1 : WritableState := { s with state := .erroring, storedError := reason }
  let s2 := if s1.hasWriter = true then { s1 with readyPromise := .rejected reason } else s1
  if WritableStreamHasOperationMarkedInFlight s2 = false ∧ s2.started = true then
    WritableStreamFinishErroring abortOutcome s2
  else s2

/-- Translation of `WritableStreamDealWithRejection`. -/
def WritableStreamDealWithRejection (abortOutcome : Except JSVal Unit) (s : WritableState)
    (error : JSVal) : WritableState :=
  if s.state = .writable then WritableStreamStartErroring abortOutcome s error
  else WritableStreamFinishErroring abortOutcome s

/-- Translation of `WritableStreamAbort`.  The second component is the
identifier of the settlement returned to the abort caller. -/
def WritableStreamAbort (abortOutcome : Except JSVal Unit) (s : WritableState)
    (reason : JSVal) : WritableState × Nat :=
  if s.state = .closed ∨ s.state = .errored then
    let r := newPromiseWith s.heap (.fulfilled .undef)
    ({ s with heap := r.1 }, r.2)
  else
    match s.pendingAbortRequest with
    | some abortRequest => (s, abortRequest.promiseId)
    | none =>
        let wasAlreadyErroring : Bool := s.state = .erroring
        let reason1 := if wasAlreadyErroring = true then JSVal.undef else reason
        let r := newPromise s.heap
        let s1 : WritableState :=
          { s with heap := r.1,
                   pendingAbortRequest :=
                     some ⟨r.2, reason1, wasAlreadyErroring⟩ }
        if wasAlreadyErroring = false then
          (WritableStreamStartErroring abortOutcome s1 reason1, r.2)
        else (s1, r.2)

/-- Modelled from the spec (section 4.A): dequeue the head of the writable
controller queue; when the queue becomes empty, the total is snapped to 0. -/
def WritableDequeueValue (s : WritableState) : WritableState :=
  match s.queue with
  | [] => s
  | pair :: rest =>
      { s with queue := rest,
               queueTotalSize := if rest = [] then 0 else s.queueTotalSize - pair.2 }

/-- Modelled from the spec (section 4.A): `EnqueueValueWithSize` on the
writable controller queue. -/
def WritableEnqueueValueWithSize (s : WritableState) (record : QueueRecord) (size : Int) :
    Except JSVal WritableState :=
  if size < 0 then .error (.rangeError "Size must be a finite, non-negative number.")
  else .ok { s with queue := s.queue ++ [(record, size)],
                    queueTotalSize := s.queueTotalSize + size }

/-- Translation of `WritableStreamMarkCloseRequestInFlight`. -/
def WritableStreamMarkCloseRequestInFlight (s : WritableState) : WritableState :=
  { s with inFlightCloseRequest := s.closeRequest, closeRequest := none }

/-- Translation of `WritableStreamMarkFirstWriteRequestInFlight`. -/
def WritableStreamMarkFirstWriteRequestInFlight (s : WritableState) : WritableState :=
  match s.writeRequests with
  | [] => s
  | id :: rest => { s with inFlightWriteRequest := some id, writeRequests := rest }

/-- Translation of `WritableStreamDefaultControllerProcessClose` up to the
invocation of the sink close algorithm, counted in `closeCalls`; the
completion of that algorithm is a separate event. -/
def WritableStreamDefaultControllerProcessClose (s : WritableState) : WritableState :=
  let s1 := WritableStreamMarkCloseRequestInFlight s
  let s2 := WritableDequeueValue s1
  { s2 with closeCalls := s2.closeCalls + 1, algorithmsCleared := true }

/-- Translation of `WritableStreamDefaultControllerProcessWrite` up to the
invocation of the sink write algorithm, counted in `writeCalls`. -/
def WritableStreamDefaultControllerProcessWrite (s : WritableState) (_chunk : JSVal) :
    WritableState :=
  let s1 := WritableStreamMarkFirstWriteRequestInFlight s
  { s1 with writeCalls := s1.writeCalls + 1 }

/-- Translation of `WritableStreamDefaultControllerAdvanceQueueIfNeeded`. -/
def WritableStreamDefaultControllerAdvanceQueueIfNeeded (abortOutcome : Except JSVal Unit)
    (s : WritableState) : WritableState :=
  if s.started = false then s
  else if s.inFlightWriteRequest ≠ none then s
  else if s.state = .erroring then WritableStreamFinishErroring abortOutcome s
  else if s.queue = [] then s
  else
    match s.queue.head? with
    | some (.closeSentinel, _) => WritableStreamDefaultControllerProcessClose s
    | some (.write chunk, _) => WritableStreamDefaultControllerProcessWrite s chunk
    | none => s

/-- Translation of `WritableStreamDefaultControllerClose`: enqueue the close
sentinel with size 0 (which cannot fail) and advance the queue. -/
def WritableStreamDefaultControllerClose (abortOutcome : Except JSVal Unit)
    (s : WritableState) : WritableState :=
  match WritableEnqueueValueWithSize s .closeSentinel 0 with
  | .ok s1 => WritableStreamDefaultControllerAdvanceQueueIfNeeded abortOutcome s1
  | .error _ => s

/-- Translation of `WritableStreamClose`; the second component identifies the
settlement returned to the close caller. -/
def WritableStreamClose (abortOutcome : Except JSVal Unit) (s : WritableState) :
    WritableState × Nat :=
  if s.state = .closed ∨ s.state = .errored then
    let r := newPromiseWith s.heap
      (.rejected (.typeError "The stream is not in the writable state and cannot be closed"))
    ({ s with heap := r.1 }, r.2)
  else
    let r := newPromise s.heap
    let s1 : WritableState := { s with heap := r.1, closeRequest := some r.2 }
    let s2 :=
      if s1.hasWriter = true ∧ s1.backpressure = true ∧ s1.state = .writable then
        { s1 with readyPromise := .fulfilled .undef }
      else s1
    (WritableStreamDefaultControllerClose abortOutcome s2, r.2)

/-- Translation of `WritableStreamAddWriteRequest`. -/
def WritableStreamAddWriteRequest (s : WritableState) : WritableState × Nat :=
  let r := newPromise s.heap
  ({ s with heap := r.1, writeRequests := s.writeRequests ++ [r.2] }, r.2)

/-- Translation of `WritableStreamDefaultControllerError` (the internal
operation): clear the algorithms and start erroring. -/
def WritableStreamDefaultControllerError (abortOutcome : Except JSVal Unit)
    (s : WritableState) (error : JSVal) : WritableState :=
  WritableStreamStartErroring abortOutcome { s with algorithmsCleared := true } error

/-- Translation of `WritableStreamDefaultControllerErrorIfNeeded`. -/
def WritableStreamDefaultControllerErrorIfNeeded (abortOutcome : Except JSVal Unit)
    (s : WritableState) (error : JSVal) : WritableState :=
  if s.state = .writable then WritableStreamDefaultControllerError abortOutcome s error
  else s

/-- Translation of `WritableStreamDefaultControllerGetChunkSize`: a throwing
size algorithm errors the stream if needed and returns size 1. -/
def WritableStreamDefaultControllerGetChunkSize (sizeAlgorithm : JSVal → Except JSVal Int)
    (abortOutcome : Except JSVal Unit) (s : WritableState) (chunk : JSVal) :
    WritableState × Int :=
  match sizeAlgorithm chunk with
  | .ok size => (s, size)
  | .error chunkSizeE =>
      (WritableStreamDefaultControllerErrorIfNeeded abortOutcome s chunkSizeE, 1)

/-- Translation of `WritableStreamDefaultControllerWrite`. -/
def WritableStreamDefaultControllerWrite (abortOutcome : Except JSVal Unit)
    (s : WritableState) (chunk : JSVal) (chunkSize : Int) : WritableState :=
  match WritableEnqueueValueWithSize s (.write chunk) chunkSize with
  | .error enqueueE => WritableStreamDefaultControllerErrorIfNeeded abortOutcome s enqueueE
  | .ok s1 =>
      let s2 :=
        if WritableStreamCloseQueuedOrInFlight s1 = false ∧ s1.state = .writable then
          WritableStreamUpdateBackpressure s1 (WritableStreamDefaultControllerGetBackpressure s1)
        else s1
      WritableStreamDefaultControllerAdvanceQueueIfNeeded abortOutcome s2

/-- Translation of `WritableStreamDefaultWriterWrite`; the second component
identifies the settlement returned to the write caller.  The re-check that the
writer was released during the size computation cannot fire here because the
modelled size algorithm is a pure function. -/
def WritableStreamDefaultWriterWrite (sizeAlgorithm : JSVal → Except JSVal Int)
    (abortOutcome : Except JSVal Unit) (s : WritableState) (chunk : JSVal) :
    WritableState × Nat :=
  let r := WritableStreamDefaultControllerGetChunkSize sizeAlgorithm abortOutcome s chunk
  let s1 := r.1
  if s1.state = .errored then
    let p := newPromiseWith s1.heap (.rejected s1.storedError)
    ({ s1 with heap := p.1 }, p.2)
  else if WritableStreamCloseQueuedOrInFlight s1 = true ∨ s1.state = .closed then
    let p := newPromiseWith s1.heap
      (.rejected (.typeError "The stream is closing or closed and cannot be written to"))
    ({ s1 with heap := p.1 }, p.2)
  else if s1.state = .erroring then
    let p := newPromiseWith s1.heap (.rejected s1.storedError)
    ({ s1 with heap := p.1 }, p.2)
  else
    let q := WritableStreamAddWriteRequest s1
    (WritableStreamDefaultControllerWrite abortOutcome q.1 chunk r.2, q.2)

/-- Translation of `WritableStreamFinishInFlightWrite`. -/
def WritableStreamFinishInFlightWrite (s : WritableState) : WritableState :=
  match s.inFlightWriteRequest with
  | some id =>
      { s with heap := settleAt s.heap id (.fulfilled .undef), inFlightWriteRequest := none }
  | none => s

/-- Translation of `WritableStreamFinishInFlightWriteWithError`. -/
def WritableStreamFinishInFlightWriteWithError (abortOutcome : Except JSVal Unit)
    (s : WritableState) (error : JSVal) : WritableState :=
  let s1 :=
    match s.inFlightWriteRequest with
    | some id =>
        { s with heap := settleAt s.heap id (.rejected error), inFlightWriteRequest := none }
    | none => s
  WritableStreamDealWithRejection abortOutcome s1 error

/-- Translation of `WritableStreamFinishInFlightClose`: resolve the in-flight
close request; when the state is erroring, the error came too late, so the
stored error is cleared and a pending abort request (if any) is resolved; the
stream then moves to closed. -/
def WritableStreamFinishInFlightClose (s : WritableState) : WritableState :=
  let s1 :=
    match s.inFlightCloseRequest with
    | some id =>
        { s with heap := settleAt s.heap id (.fulfilled .undef), inFlightCloseRequest := none }
    | none => s
  let s2 :=
    if s1.state = .erroring then
      let s2a : WritableState := { s1 with storedError := JSVal.undef }
      match s2a.pendingAbortRequest with
      | some abortRequest =>
          { s2a with heap := settleAt s2a.heap abortRequest.promiseId (.fulfilled .undef),
                     pendingAbortRequest := none }
      | none => s2a
    else s1
  let s3 : WritableState := { s2 with state := .closed }
  if s3.hasWriter = true then { s3 with closedPromise := .fulfilled .undef } else s3

/-- Translation of `WritableStreamFinishInFlightCloseWithError`: never execute
the sink abort after the sink close, so a pending abort request is rejected
here and removed. -/
def WritableStreamFinishInFlightCloseWithError (abortOutcome : Except JSVal Unit)
    (s : WritableState) (error : JSVal) : WritableState :=
  let s1 :=
    match s.inFlightCloseRequest with
    | some id =>
        { s with heap := settleAt s.heap id (.rejected error), inFlightCloseRequest := none }
    | none => s
  let s2 :=
    match s1.pendingAbortRequest with
    | some abortRequest =>
        { s1 with heap := settleAt s1.heap abortRequest.promiseId (.rejected error),
                  pendingAbortRequest := none }
    | none => s1
  WritableStreamDealWithRejection abortOutcome s2 error

/-- Translation of the fulfillment continuation of the sink write algorithm
inside `WritableStreamDefaultControllerProcessWrite`. -/
def WritableStreamSinkWriteFulfilled (abortOutcome : Except JSVal Unit)
    (s : WritableState) : WritableState :=
  let s1 := WritableStreamFinishInFlightWrite s
  let s2 := WritableDequeueValue s1
  let s3 :=
    if WritableStreamCloseQueuedOrInFlight s2 = false ∧ s2.state = .writable then
      WritableStreamUpdateBackpressure s2 (WritableStreamDefaultControllerGetBackpressure s2)
    else s2
  WritableStreamDefaultControllerAdvanceQueueIfNeeded abortOutcome s3

/-- Translation of the rejection continuation of the sink write algorithm
inside `WritableStreamDefaultControllerProcessWrite`. -/
def WritableStreamSinkWriteRejected (abortOutcome : Except JSVal Unit)
    (s : WritableState) (reason : JSVal) : WritableState :=
  let s1 := if s.state = .writable then { s with algorithmsCleared := true } else s
  WritableStreamFinishInFlightWriteWithError abortOutcome s1 reason

/-- Translation of the fulfillment continuation of the start algorithm inside
`SetUpWritableStreamDefaultController`. -/
def WritableStreamStartFulfilled (abortOutcome : Except JSVal Unit)
    (s : WritableState) : WritableState :=
  WritableStreamDefaultControllerAdvanceQueueIfNeeded abortOutcome { s with started := true }

/-- Translation of the rejection continuation of the start algorithm inside
`SetUpWritableStreamDefaultController`. -/
def WritableStreamStartRejected (abortOutcome : Except JSVal Unit)
    (s : WritableState) (r : JSVal) : WritableState :=
  WritableStreamDealWithRejection abortOutcome { s with started := true } r

/-- Translation of the public method
`WritableStreamDefaultController.prototype.error`: a no-op unless the stream
state is writable. -/
def WritableStreamDefaultController_error (abortOutcome : Except JSVal Unit)
    (s : WritableState) (e : JSVal) : WritableState :=
  if s.state ≠ .writable then s
  else WritableStreamDefaultControllerError abortOutcome s e

/-- Translation of the `WritableStreamDefaultWriter` constructor; the second
component is the exception thrown on a locked stream. -/
def WritableStreamDefaultWriter_construct (s : WritableState) :
    WritableState × Option JSVal :=
  if s.hasWriter = true then
    (s, some (.typeError
      "This stream has already been locked for exclusive writing by another writer"))
  else
    let s1 : WritableState := { s with hasWriter := true }
    match s1.state with
    | .writable =>
        let ready :=
          if WritableStreamCloseQueuedOrInFlight s1 = false ∧ s1.backpressure = true then
            Settlement.pending
          else Settlement.fulfilled .undef
        ({ s1 with readyPromise := ready, closedPromise := .pending }, none)
    | .erroring =>
        ({ s1 with readyPromise := .rejected s1.storedError, closedPromise := .pending }, none)
    | .closed =>
        ({ s1 with readyPromise := .fulfilled .undef, closedPromise := .fulfilled .undef }, none)
    | .errored =>
        ({ s1 with readyPromise := .rejected s1.storedError,
                   closedPromise := .rejected s1.storedError }, none)

/-- Translation of `WritableStreamDefaultWriterRelease`: both writer
settlements are made rejected with the released error and the writer is
detached. -/
def WritableStreamDefaultWriterRelease (s : WritableState) : WritableState :=
  let releasedError := JSVal.typeError
    "Writer was released and can no longer be used to monitor the streams closedness"
  { s with readyPromise := .rejected releasedError,
           closedPromise := .rejected releasedError,
           hasWriter := false }

theorem hasOperationMarkedInFlight_false_iff (s : WritableState) :
    WritableStreamHasOperationMarkedInFlight s = false ↔
      (s.inFlightWriteRequest = none ∧ s.inFlightCloseRequest = none) := by
  unfold WritableStreamHasOperationMarkedInFlight
  split <;> simp_all

theorem closeQueuedOrInFlight_congr (s t : WritableState)
    (h1 : t.closeRequest = s.closeRequest)
    (h2 : t.inFlightCloseRequest = s.inFlightCloseRequest) :
    WritableStreamCloseQueuedOrInFlight t = WritableStreamCloseQueuedOrInFlight s := by
  unfold WritableStreamCloseQueuedOrInFlight
  rw [h1, h2]

theorem get_concat_last (h : Heap) (st : Settlement) :
    (newPromiseWith h st).1.get? (newPromiseWith h st).2 = some st := by
  unfold newPromiseWith
  simp [List.get?_concat_length]

/-- C7: abort on a closed or errored writable resolves immediately with
undefined; abort with an existing pending abort request returns that same
shared settlement without touching the state; abort on an erroring stream with
no pending abort records a request with `wasAlreadyErroring` and with the
caller reason discarded. -/
theorem WritableStreamAbort_spec (abortOutcome : Except JSVal Unit) (s : WritableState)
    (reason : JSVal) :
    ((s.state = .closed ∨ s.state = .errored) →
      (WritableStreamAbort abortOutcome s reason).1.heap.get?
        (WritableStreamAbort abortOutcome s reason).2 = some (.fulfilled .undef)) ∧
    (∀ abortRequest, ¬(s.state = .closed ∨ s.state = .errored) →
      s.pendingAbortRequest = some abortRequest →
      WritableStreamAbort abortOutcome s reason = (s, abortRequest.promiseId)) ∧
    (s.state = .erroring → s.pendingAbortRequest = none →
      (WritableStreamAbort abortOutcome s reason).1.pendingAbortRequest =
        some ⟨s.heap.length, .undef, true⟩) := by
  refine ⟨?_, ?_, ?_⟩
  · intro hterm
    unfold WritableStreamAbort
    rw [if_pos hterm]
    exact get_concat_last s.heap (.fulfilled .undef)
  · intro abortRequest hterm hpend
    unfold WritableStreamAbort
    rw [if_neg hterm, hpend]
  · intro hstate hpend
    unfold WritableStreamAbort
    rw [if_neg (by simp [hstate])]
    rw [hpend]
    simp [hstate, newPromise, newPromiseWith]

/-- A concrete closed writable stream used by witnesses. -/
def wsClosed : WritableState :=
  { heap := [], state := .closed, storedError := .undef, hasWriter := false,
    writeRequests := [], inFlightWriteRequest := none, closeRequest := none,
    inFlightCloseRequest := none, pendingAbortRequest := none, backpressure := false,
    readyPromise := .fulfilled .undef, closedPromise := .fulfilled .undef,
    queue := [], queueTotalSize := 0, started := true, strategyHWM := 1,
    algorithmsCleared := true, abortCalls := 0, writeCalls := 0, closeCalls := 0 }

/-- A concrete erroring writable stream with no pending abort request. -/
def wsErroring : WritableState :=
  { heap := [], state := .erroring, storedError := .str "e0", hasWriter := false,
    writeRequests := [], inFlightWriteRequest := some 5, closeRequest := none,
    inFlightCloseRequest := none, pendingAbortRequest := none, backpressure := false,
    readyPromise := .rejected (.str "e0"), closedPromise := .pending,
    queue := [], queueTotalSize := 0, started := true, strategyHWM := 1,
    algorithmsCleared := false, abortCalls := 0, writeCalls := 0, closeCalls := 0 }

/-- A concrete erroring writable stream with a pending abort request. -/
def wsErroringPendingAbort : WritableState :=
  { wsErroring with heap := [.pending],
                    pendingAbortRequest := some ⟨0, .undef, true⟩ }

/-- Witness for C7 at concrete streams, one per case. -/
theorem WritableStreamAbort_spec_witness :
    ((WritableStreamAbort (.ok ()) wsClosed (.str "r")).1.heap.get?
      (WritableStreamAbort (.ok ()) wsClosed (.str "r")).2 = some (.fulfilled .undef)) ∧
    (WritableStreamAbort (.ok ()) wsErroringPendingAbort (.str "r") =
      (wsErroringPendingAbort, 0)) ∧
    ((WritableStreamAbort (.ok ()) wsErroring (.str "r")).1.pendingAbortRequest =
      some ⟨0, .undef, true⟩) := by
  refine ⟨(WritableStreamAbort_spec (.ok ()) wsClosed (.str "r")).1 (by decide), ?_, ?_⟩
  · exact (WritableStreamAbort_spec (.ok ()) wsErroringPendingAbort (.str "r")).2.1
      ⟨0, .undef, true⟩ (by decide) (by decide)
  · exact (WritableStreamAbort_spec (.ok ()) wsErroring (.str "r")).2.2 (by decide) (by decide)

/-- C9: the public error method of the writable default controller is a no-op
when the stream state is not writable: the whole state, including the stored
error, queue, queue total size and every settlement, is unchanged. -/
theorem WritableStreamDefaultController_error_noop (abortOutcome : Except JSVal Unit)
    (s : WritableState) (e : JSVal) (h : s.state ≠ .writable) :
    WritableStreamDefaultController_error abortOutcome s e = s := by
  unfold WritableStreamDefaultController_error
  rw [if_pos h]

/-- Witness for C9 at a concrete closed stream. -/
theorem WritableStreamDefaultController_error_noop_witness :
    WritableStreamDefaultController_error (.ok ()) wsClosed (.str "e") = wsClosed :=
  WritableStreamDefaultController_error_noop (.ok ()) wsClosed (.str "e") (by decide)

/-- C10: constructing a writer on an unlocked writable stream initialises its
ready and closed settlements solely from the stream state: errored gives both
rejected with the stored error; closed gives both resolved; erroring gives
ready rejected and closed pending; writable gives closed pending and ready
pending iff backpressure holds and no close is queued or in flight (otherwise
ready is resolved). -/
theorem WritableStreamDefaultWriter_construct_spec (s : WritableState)
    (hunlocked : s.hasWriter = false) :
    (WritableStreamDefaultWriter_construct s).2 = none ∧
    (s.state = .errored →
      (WritableStreamDefaultWriter_construct s).1.readyPromise = .rejected s.storedError ∧
      (WritableStreamDefaultWriter_construct s).1.closedPromise = .rejected s.storedError) ∧
    (s.state = .closed →
      (WritableStreamDefaultWriter_construct s).1.readyPromise = .fulfilled .undef ∧
      (WritableStreamDefaultWriter_construct s).1.closedPromise = .fulfilled .undef) ∧
    (s.state = .erroring →
      (WritableStreamDefaultWriter_construct s).1.readyPromise = .rejected s.storedError ∧
      (WritableStreamDefaultWriter_construct s).1.closedPromise = .pending) ∧
    (s.state = .writable →
      (WritableStreamDefaultWriter_construct s).1.closedPromise = .pending ∧
      ((WritableStreamDefaultWriter_construct s).1.readyPromise = .pending ↔
        (s.backpressure = true ∧ WritableStreamCloseQueuedOrInFlight s = false)) ∧
      ((WritableStreamDefaultWriter_construct s).1.readyPromise = .pending ∨
        (WritableStreamDefaultWriter_construct s).1.readyPromise = .fulfilled .undef)) := by
  unfold WritableStreamDefaultWriter_construct WritableStreamCloseQueuedOrInFlight
  rw [if_neg (by simp [hunlocked])]
  cases hstate : s.state <;>
    by_cases hbp : s.backpressure = true <;>
      cases hcr : s.closeRequest <;> cases hicr : s.inFlightCloseRequest <;>
        simp [hstate, hbp, hcr, hicr]

/-- A concrete writable stream under backpressure with no close queued. -/
def wsBackpressure : WritableState :=
  { wsClosed with state := .writable, backpressure := true, queueTotalSize := 1,
                  algorithmsCleared := false }

/-- Witness for C10 at a concrete writable stream under backpressure. -/
theorem WritableStreamDefaultWriter_construct_spec_witness :
    (WritableStreamDefaultWriter_construct wsBackpressure).2 = none ∧
    (WritableStreamDefaultWriter_construct wsBackpressure).1.closedPromise = .pending ∧
    (WritableStreamDefaultWriter_construct wsBackpressure).1.readyPromise = .pending := by
  have h := WritableStreamDefaultWriter_construct_spec wsBackpressure (by decide)
  refine ⟨h.1, (h.2.2.2.2 (by decide)).1, ?_⟩
  exact ((h.2.2.2.2 (by decide)).2.1).2 (by decide)

theorem finishErroring_proj (o : Except JSVal Unit) (s : WritableState) :
    (WritableStreamFinishErroring o s).state = .errored ∧
    (WritableStreamFinishErroring o s).storedError = s.storedError ∧
    (WritableStreamFinishErroring o s).writeCalls = s.writeCalls ∧
    (WritableStreamFinishErroring o s).queue = [] ∧
    (WritableStreamFinishErroring o s).closeRequest = none ∧
    (WritableStreamFinishErroring o s).inFlightWriteRequest = s.inFlightWriteRequest ∧
    (WritableStreamFinishErroring o s).inFlightCloseRequest = s.inFlightCloseRequest ∧
    (WritableStreamFinishErroring o s).pendingAbortRequest = none := by
  unfold WritableStreamFinishErroring WritableStreamControllerErrorSteps
    WritableStreamRejectCloseAndClosedPromiseIfNeeded
  cases hp : s.pendingAbortRequest with
  | none =>
      cases hc : s.closeRequest <;> by_cases hw : s.hasWriter = true <;>
        simp [hp, hc, hw]
  | some abortRequest =>
      by_cases har : abortRequest.wasAlreadyErroring = true <;> cases o <;>
        cases hc : s.closeRequest <;> by_cases hw : s.hasWriter = true <;>
          simp [hp, har, hc, hw]

theorem startErroring_proj (o : Except JSVal Unit) (s : WritableState) (reason : JSVal) :
    (WritableStreamStartErroring o s reason).storedError = reason ∧
    (WritableStreamStartErroring o s reason).writeCalls = s.writeCalls ∧
    (((WritableStreamStartErroring o s reason).state = .erroring ∧
      (WritableStreamStartErroring o s reason).queue = s.queue ∧
      (WritableStreamStartErroring o s reason).closeRequest = s.closeRequest ∧
      (WritableStreamStartErroring o s reason).inFlightCloseRequest =
        s.inFlightCloseRequest) ∨
     ((WritableStreamStartErroring o s reason).state = .errored ∧
      (WritableStreamStartErroring o s reason).queue = [] ∧
      (WritableStreamStartErroring o s reason).closeRequest = none ∧
      (WritableStreamStartErroring o s reason).inFlightCloseRequest = none)) := by
  unfold WritableStreamStartErroring
  by_cases hw : s.hasWriter = true <;>
    by_cases hst : s.started = true <;>
      by_cases hifw : s.inFlightWriteRequest = none <;>
        by_cases hifc : s.inFlightCloseRequest = none <;>
          simp [hw, hst, hifw, hifc, WritableStreamHasOperationMarkedInFlight,
                finishErroring_proj]

theorem errorIfNeeded_writable (o : Except JSVal Unit) (s : WritableState) (e : JSVal)
    (hstate : s.state = .writable) :
    (WritableStreamDefaultControllerErrorIfNeeded o s e).storedError = e ∧
    (WritableStreamDefaultControllerErrorIfNeeded o s e).writeCalls = s.writeCalls ∧
    (((WritableStreamDefaultControllerErrorIfNeeded o s e).state = .erroring ∧
      (WritableStreamDefaultControllerErrorIfNeeded o s e).queue = s.queue ∧
      WritableStreamCloseQueuedOrInFlight (WritableStreamDefaultControllerErrorIfNeeded o s e) =
        WritableStreamCloseQueuedOrInFlight s) ∨
     ((WritableStreamDefaultControllerErrorIfNeeded o s e).state = .errored ∧
      (WritableStreamDefaultControllerErrorIfNeeded o s e).queue = [] ∧
      WritableStreamCloseQueuedOrInFlight (WritableStreamDefaultControllerErrorIfNeeded o s e) =
        false)) := by
  unfold WritableStreamDefaultControllerErrorIfNeeded
  rw [if_pos hstate]
  unfold WritableStreamDefaultControllerError
  have h := startErroring_proj o { s with algorithmsCleared := true } e
  simp only at h
  refine ⟨h.1, h.2.1, ?_⟩
  rcases h.2.2 with ⟨h1, h2, h3, h4⟩ | ⟨h1, h2, h3, h4⟩
  · exact .inl ⟨h1, h2, closeQueuedOrInFlight_congr s _ h3 h4⟩
  · refine .inr ⟨h1, h2, ?_⟩
    unfold WritableStreamCloseQueuedOrInFlight
    rw [h3, h4]
    simp

/-- A writable stream on which a close has been requested while the sink has
not started yet: the state after constructing the stream with a pending start
settlement and calling `writer.close()`. -/
def wsCloseQueuedUnstarted : WritableState :=
  { heap := [.pending], state := .writable, storedError := .undef, hasWriter := true,
    writeRequests := [], inFlightWriteRequest := none, closeRequest := some 0,
    inFlightCloseRequest := none, pendingAbortRequest := none, backpressure := false,
    readyPromise := .fulfilled .undef, closedPromise := .pending,
    queue := [(.closeSentinel, 0)], queueTotalSize := 0, started := false, strategyHWM := 1,
    algorithmsCleared := false, abortCalls := 0, writeCalls := 0, closeCalls := 0 }

/-- C8 counterexample: with a close request queued and the sink not yet
started, a write whose size function throws leaves the stream erroring with
the thrown error, but the settlement returned by write rejects with a
TypeError about the closing stream, not with the thrown error. -/
theorem WritableStreamDefaultWriterWrite_sizeThrow_counterexample :
    ((WritableStreamDefaultWriterWrite (fun _ => .error (.str "boom")) (.ok ())
        wsCloseQueuedUnstarted (.str "chunk")).1.heap.get?
      (WritableStreamDefaultWriterWrite (fun _ => .error (.str "boom")) (.ok ())
        wsCloseQueuedUnstarted (.str "chunk")).2 =
      some (.rejected
        (.typeError "The stream is closing or closed and cannot be written to"))) ∧
    ((WritableStreamDefaultWriterWrite (fun _ => .error (.str "boom")) (.ok ())
        wsCloseQueuedUnstarted (.str "chunk")).1.storedError = .str "boom") ∧
    ((WritableStreamDefaultWriterWrite (fun _ => .error (.str "boom")) (.ok ())
        wsCloseQueuedUnstarted (.str "chunk")).1.heap.get?
      (WritableStreamDefaultWriterWrite (fun _ => .error (.str "boom")) (.ok ())
        wsCloseQueuedUnstarted (.str "chunk")).2 ≠ some (.rejected (.str "boom"))) := by
  exact ⟨rfl, rfl, by decide⟩

/-- C8 amended: a write whose size function throws E on a writable stream
begins erroring the stream with stored error E, never enqueues the chunk and
never invokes the sink write algorithm for it; the returned settlement rejects
with E unless a close was already queued or in flight and the erroring could
not finish synchronously, in which case it rejects with a TypeError.  In
particular, when no close is queued or in flight the settlement always rejects
with E. -/
theorem WritableStreamDefaultWriterWrite_sizeThrow (sizeAlgorithm : JSVal → Except JSVal Int)
    (abortOutcome : Except JSVal Unit) (s : WritableState) (chunk E : JSVal)
    (hstate : s.state = .writable) (hsz : sizeAlgorithm chunk = .error E) :
    ((WritableStreamDefaultWriterWrite sizeAlgorithm abortOutcome s chunk).1.state =
        .erroring ∨
     (WritableStreamDefaultWriterWrite sizeAlgorithm abortOutcome s chunk).1.state =
        .errored) ∧
    (WritableStreamDefaultWriterWrite sizeAlgorithm abortOutcome s chunk).1.storedError = E ∧
    (WritableStreamDefaultWriterWrite sizeAlgorithm abortOutcome s chunk).1.writeCalls =
      s.writeCalls ∧
    ((WritableStreamDefaultWriterWrite sizeAlgorithm abortOutcome s chunk).1.queue = s.queue ∨
     (WritableStreamDefaultWriterWrite sizeAlgorithm abortOutcome s chunk).1.queue = []) ∧
    ((WritableStreamDefaultWriterWrite sizeAlgorithm abortOutcome s chunk).1.heap.get?
        (WritableStreamDefaultWriterWrite sizeAlgorithm abortOutcome s chunk).2 =
          some (.rejected E) ∨
     (WritableStreamDefaultWriterWrite sizeAlgorithm abortOutcome s chunk).1.heap.get?
        (WritableStreamDefaultWriterWrite sizeAlgorithm abortOutcome s chunk).2 =
          some (.rejected
            (.typeError "The stream is closing or closed and cannot be written to"))) ∧
    (WritableStreamCloseQueuedOrInFlight s = false →
      (WritableStreamDefaultWriterWrite sizeAlgorithm abortOutcome s chunk).1.heap.get?
        (WritableStreamDefaultWriterWrite sizeAlgorithm abortOutcome s chunk).2 =
          some (.rejected E)) := by
  have ht := errorIfNeeded_writable abortOutcome s E hstate
  unfold WritableStreamDefaultWriterWrite WritableStreamDefaultControllerGetChunkSize
  rw [hsz]
  set t := WritableStreamDefaultControllerErrorIfNeeded abortOutcome s E with hts
  obtain ⟨hterr, htwc, hcase⟩ := ht
  rcases hcase with ⟨h1, h2, h3⟩ | ⟨h1, h2, h3⟩
  · rw [if_neg (by rw [h1]; intro hcontra; exact absurd hcontra (by decide))]
    by_cases hcq : WritableStreamCloseQueuedOrInFlight s = true
    · rw [if_pos (by rw [h3, hcq]; exact Or.inl rfl)]
      refine ⟨Or.inl h1, hterr, htwc, Or.inl h2, Or.inr ?_, ?_⟩
      · exact get_concat_last t.heap _
      · intro hfalse
        rw [hfalse] at hcq
        exact absurd hcq (by decide)
    · have hcq2 : WritableStreamCloseQueuedOrInFlight s = false := by
        revert hcq
        cases WritableStreamCloseQueuedOrInFlight s <;> simp
      rw [if_neg (by
        rw [h3, hcq2, h1]
        intro hcontra
        rcases hcontra with hx | hx <;> exact absurd hx (by decide))]
      rw [if_pos h1]
      rw [hterr]
      exact ⟨Or.inl h1, rfl, htwc, Or.inl h2, Or.inl (get_concat_last t.heap _),
        fun _ => get_concat_last t.heap _⟩
  · rw [if_pos h1]
    rw [hterr]
    exact ⟨Or.inr h1, rfl, htwc, Or.inr h2, Or.inl (get_concat_last t.heap _),
      fun _ => get_concat_last t.heap _⟩

/-- A concrete idle writable stream in the writable state. -/
def wsWritable : WritableState :=
  { wsClosed with state := .writable, algorithmsCleared := false }

/-- Witness for the amended C8 at a concrete stream with no close queued. -/
theorem WritableStreamDefaultWriterWrite_sizeThrow_witness :
    (WritableStreamDefaultWriterWrite (fun _ => .error (.str "E")) (.ok ()) wsWritable
        (.str "c")).1.heap.get?
      (WritableStreamDefaultWriterWrite (fun _ => .error (.str "E")) (.ok ()) wsWritable
        (.str "c")).2 = some (.rejected (.str "E")) ∧
    (WritableStreamDefaultWriterWrite (fun _ => .error (.str "E")) (.ok ()) wsWritable
      (.str "c")).1.writeCalls = wsWritable.writeCalls := by
  have h := WritableStreamDefaultWriterWrite_sizeThrow (fun _ => .error (.str "E")) (.ok ())
    wsWritable (.str "c") (.str "E") (by decide) rfl
  exact ⟨h.2.2.2.2.2 (by decide), h.2.2.1⟩

theorem settleAt_get_self (h : Heap) (id : Nat) (st : Settlement)
    (hp : h.get? id = some .pending) : (settleAt h id st).get? id = some st := by
  unfold settleAt
  rw [hp]
  rw [List.get?_set_eq, hp]
  rfl

theorem settleAt_settled_noop (h : Heap) (id : Nat) (st : Settlement) (v : JSVal)
    (hg : h.get? id = some (.fulfilled v)) : settleAt h id st = h := by
  unfold settleAt
  rw [hg]

theorem settleAt_get_other (h : Heap) (id id2 : Nat) (st : Settlement) (hne : id ≠ id2) :
    (settleAt h id2 st).get? id = h.get? id := by
  unfold settleAt
  cases hg : h.get? id2 with
  | none => rfl
  | some s0 =>
      cases s0 <;> first
        | rfl
        | exact List.get?_set_ne st h (fun he => hne he.symm)

/-- The events that can act on a writable stream in this model: the public
abort, close, write and controller error entry points, writer acquisition and
release, and the asynchronous completions of the sink start, write and close
algorithms. -/
inductive WritableOp where
  | abortOp (reason : JSVal) (abortOutcome : Except JSVal Unit)
  | closeOp (abortOutcome : Except JSVal Unit)
  | writerWriteOp (chunk : JSVal) (sizeOutcome : Except JSVal Int)
      (abortOutcome : Except JSVal Unit)
  | controllerErrorOp (e : JSVal) (abortOutcome : Except JSVal Unit)
  | getWriterOp
  | releaseWriterOp
  | startFulfilledOp (abortOutcome : Except JSVal Unit)
  | startRejectedOp (r : JSVal) (abortOutcome : Except JSVal Unit)
  | sinkWriteFulfilledOp (abortOutcome : Except JSVal Unit)
  | sinkWriteRejectedOp (r : JSVal) (abortOutcome : Except JSVal Unit)
  | sinkCloseFulfilledOp
  | sinkCloseRejectedOp (r : JSVal) (abortOutcome : Except JSVal Unit)

/-- When an event can fire: the asynchronous completions require the
corresponding operation to be in flight (respectively the start algorithm not
to have completed); the public entry points are always callable. -/
def wEnabled : WritableOp → WritableState → Prop
  | .startFulfilledOp _, s => s.started = false
  | .startRejectedOp _ _, s => s.started = false
  | .sinkWriteFulfilledOp _, s => s.inFlightWriteRequest ≠ none
  | .sinkWriteRejectedOp _ _, s => s.inFlightWriteRequest ≠ none
  | .sinkCloseFulfilledOp, s => s.inFlightCloseRequest ≠ none
  | .sinkCloseRejectedOp _ _, s => s.inFlightCloseRequest ≠ none
  | _, _ => True

/-- The state transition of each event, given by the translated operations. -/
def wApply : WritableOp → WritableState → WritableState
  | .abortOp reason o, s => (WritableStreamAbort o s reason).1
  | .closeOp o, s => (WritableStreamClose o s).1
  | .writerWriteOp chunk szo o, s =>
      (WritableStreamDefaultWriterWrite (fun _ => szo) o s chunk).1
  | .controllerErrorOp e o, s => WritableStreamDefaultController_error o s e
  | .getWriterOp, s => (WritableStreamDefaultWriter_construct s).1
  | .releaseWriterOp, s => WritableStreamDefaultWriterRelease s
  | .startFulfilledOp o, s => WritableStreamStartFulfilled o s
  | .startRejectedOp r o, s => WritableStreamStartRejected o s r
  | .sinkWriteFulfilledOp o, s => WritableStreamSinkWriteFulfilled o s
  | .sinkWriteRejectedOp r o, s => WritableStreamSinkWriteRejected o s r
  | .sinkCloseFulfilledOp, s => WritableStreamFinishInFlightClose s
  | .sinkCloseRejectedOp r o, s => WritableStreamFinishInFlightCloseWithError o s r

/-- One step of the writable machine. -/
def WStep (s t : WritableState) : Prop :=
  ∃ op, wEnabled op s ∧ t = wApply op s

/-- A closed stream with no pending abort request and nothing in flight. -/
def ClosedQuiescent (s : WritableState) : Prop :=
  s.state = .closed ∧ s.pendingAbortRequest = none ∧ s.inFlightWriteRequest = none ∧
  s.inFlightCloseRequest = none ∧ s.started = true

theorem closedQuiescent_step (op : WritableOp) (s : WritableState)
    (hen : wEnabled op s) (hinv : ClosedQuiescent s) :
    ClosedQuiescent (wApply op s) ∧ (wApply op s).abortCalls = s.abortCalls := by
  obtain ⟨hst, hpa, hifw, hifc, hstart⟩ := hinv
  cases op with
  | abortOp reason o =>
      simp only [wApply]
      unfold WritableStreamAbort
      rw [if_pos (Or.inl hst)]
      exact ⟨⟨hst, hpa, hifw, hifc, hstart⟩, rfl⟩
  | closeOp o =>
      simp only [wApply]
      unfold WritableStreamClose
      rw [if_pos (Or.inl hst)]
      exact ⟨⟨hst, hpa, hifw, hifc, hstart⟩, rfl⟩
  | writerWriteOp chunk szo o =>
      cases szo with
      | ok n =>
          simp only [wApply, WritableStreamDefaultWriterWrite,
            WritableStreamDefaultControllerGetChunkSize]
          rw [if_neg (by rw [hst]; decide)]
          rw [if_pos (Or.inr hst)]
          exact ⟨⟨hst, hpa, hifw, hifc, hstart⟩, rfl⟩
      | error e =>
          have hnoop : WritableStreamDefaultControllerErrorIfNeeded o s e = s := by
            unfold WritableStreamDefaultControllerErrorIfNeeded
            rw [if_neg (by rw [hst]; decide)]
          simp only [wApply, WritableStreamDefaultWriterWrite,
            WritableStreamDefaultControllerGetChunkSize, hnoop]
          rw [if_neg (by rw [hst]; decide)]
          rw [if_pos (Or.inr hst)]
          exact ⟨⟨hst, hpa, hifw, hifc, hstart⟩, rfl⟩
  | controllerErrorOp e o =>
      simp only [wApply]
      unfold WritableStreamDefaultController_error
      rw [if_pos (by rw [hst]; decide)]
      exact ⟨⟨hst, hpa, hifw, hifc, hstart⟩, rfl⟩
  | getWriterOp =>
      simp only [wApply]
      unfold WritableStreamDefaultWriter_construct
      by_cases hw : s.hasWriter = true
      · rw [if_pos hw]
        exact ⟨⟨hst, hpa, hifw, hifc, hstart⟩, rfl⟩
      · rw [if_neg hw]
        simp [hst, ClosedQuiescent, hpa, hifw, hifc, hstart]
  | releaseWriterOp =>
      simp only [wApply]
      unfold WritableStreamDefaultWriterRelease
      exact ⟨⟨hst, hpa, hifw, hifc, hstart⟩, rfl⟩
  | startFulfilledOp o =>
      simp only [wEnabled] at hen
      rw [hstart] at hen
      exact absurd hen (by decide)
  | startRejectedOp r o =>
      simp only [wEnabled] at hen
      rw [hstart] at hen
      exact absurd hen (by decide)
  | sinkWriteFulfilledOp o =>
      simp only [wEnabled] at hen
      exact absurd hifw hen
  | sinkWriteRejectedOp r o =>
      simp only [wEnabled] at hen
      exact absurd hifw hen
  | sinkCloseFulfilledOp =>
      simp only [wEnabled] at hen
      exact absurd hifc hen
  | sinkCloseRejectedOp r o =>
      simp only [wEnabled] at hen
      exact absurd hifc hen

theorem closedQuiescent_reachable (s t : WritableState)
    (hinv : ClosedQuiescent s) (hreach : Relation.ReflTransGen WStep s t) :
    ClosedQuiescent t ∧ t.abortCalls = s.abortCalls := by
  induction hreach with
  | refl => exact ⟨hinv, rfl⟩
  | tail hab hbc ih =>
      obtain ⟨op, hen, heq⟩ := hbc
      obtain ⟨hinvb, hcalls⟩ := ih
      have h := closedQuiescent_step op _ hen hinvb
      rw [heq]
      exact ⟨h.1, by rw [h.2, hcalls]⟩

/-- C2: when an abort was requested on a writable stream (recording a pending
abort request with `wasAlreadyErroring` false, so the stream is erroring) and
the in-flight sink close fulfills, the stream ends closed, the abort request
settlement resolves with undefined, the stored error is cleared, and the sink
abort algorithm is not invoked then nor in any reachable later state. -/
theorem WritableStreamFinishInFlightClose_spec (s : WritableState)
    (abortRequest : PendingAbortRequest) (closeId : Nat)
    (hstate : s.state = .erroring)
    (hpend : s.pendingAbortRequest = some abortRequest)
    (_hwae : abortRequest.wasAlreadyErroring = false)
    (hifc : s.inFlightCloseRequest = some closeId)
    (hifw : s.inFlightWriteRequest = none)
    (hstart : s.started = true)
    (hpendingProm : s.heap.get? abortRequest.promiseId = some .pending) :
    (WritableStreamFinishInFlightClose s).state = .closed ∧
    (WritableStreamFinishInFlightClose s).storedError = .undef ∧
    (WritableStreamFinishInFlightClose s).heap.get? abortRequest.promiseId =
      some (.fulfilled .undef) ∧
    (WritableStreamFinishInFlightClose s).abortCalls = s.abortCalls ∧
    (∀ t, Relation.ReflTransGen WStep (WritableStreamFinishInFlightClose s) t →
      t.abortCalls = s.abortCalls) := by
  have hmain : (WritableStreamFinishInFlightClose s).state = .closed ∧
      (WritableStreamFinishInFlightClose s).storedError = .undef ∧
      (WritableStreamFinishInFlightClose s).heap.get? abortRequest.promiseId =
        some (.fulfilled .undef) ∧
      (WritableStreamFinishInFlightClose s).abortCalls = s.abortCalls ∧
      (WritableStreamFinishInFlightClose s).pendingAbortRequest = none ∧
      (WritableStreamFinishInFlightClose s).inFlightWriteRequest = none ∧
      (WritableStreamFinishInFlightClose s).inFlightCloseRequest = none ∧
      (WritableStreamFinishInFlightClose s).started = true := by
    unfold WritableStreamFinishInFlightClose
    rw [hifc]
    have hheap : (settleAt (settleAt s.heap closeId (.fulfilled .undef))
        abortRequest.promiseId (.fulfilled .undef)).get? abortRequest.promiseId =
          some (.fulfilled .undef) := by
      by_cases hne : abortRequest.promiseId = closeId
      · subst hne
        have h1 := settleAt_get_self s.heap abortRequest.promiseId (.fulfilled .undef)
          hpendingProm
        rw [settleAt_settled_noop _ _ _ _ h1]
        exact h1
      · have h1 : (settleAt s.heap closeId (.fulfilled .undef)).get? abortRequest.promiseId =
            some .pending := by
          rw [settleAt_get_other _ _ _ _ hne]
          exact hpendingProm
        exact settleAt_get_self _ _ _ h1
    simp only [List.get?_eq_getElem?] at hheap
    by_cases hw : s.hasWriter = true <;>
      simp [hstate, hpend, hw, hheap, hifw, hstart]
  refine ⟨hmain.1, hmain.2.1, hmain.2.2.1, hmain.2.2.2.1, ?_⟩
  intro t hreach
  have hq : ClosedQuiescent (WritableStreamFinishInFlightClose s) :=
    ⟨hmain.1, hmain.2.2.2.2.1, hmain.2.2.2.2.2.1, hmain.2.2.2.2.2.2.1,
     hmain.2.2.2.2.2.2.2⟩
  have h := closedQuiescent_reachable _ t hq hreach
  rw [h.2, hmain.2.2.2.1]

/-- A concrete erroring writable stream with an in-flight close and a pending
abort request recorded by an abort call made while the state was writable. -/
def wsClosingWithAbort : WritableState :=
  { heap := [.pending, .pending], state := .erroring, storedError := .str "abort reason",
    hasWriter := true, writeRequests := [], inFlightWriteRequest := none,
    closeRequest := none, inFlightCloseRequest := some 0,
    pendingAbortRequest := some ⟨1, .str "abort reason", false⟩, backpressure := false,
    readyPromise := .rejected (.str "abort reason"), closedPromise := .pending,
    queue := [], queueTotalSize := 0, started := true, strategyHWM := 1,
    algorithmsCleared := true, abortCalls := 0, writeCalls := 0, closeCalls := 0 }

/-- Witness for C2 at a concrete stream. -/
theorem WritableStreamFinishInFlightClose_spec_witness :
    (WritableStreamFinishInFlightClose wsClosingWithAbort).state = .closed ∧
    (WritableStreamFinishInFlightClose wsClosingWithAbort).storedError = .undef ∧
    (WritableStreamFinishInFlightClose wsClosingWithAbort).heap.get? 1 =
      some (.fulfilled .undef) ∧
    (WritableStreamFinishInFlightClose wsClosingWithAbort).abortCalls =
      wsClosingWithAbort.abortCalls := by
  have h := WritableStreamFinishInFlightClose_spec wsClosingWithAbort
    ⟨1, .str "abort reason", false⟩ 0 (by decide) (by decide) (by decide) (by decide)
    (by decide) (by decide) (by decide)
  exact ⟨h.1, h.2.1, h.2.2.1, h.2.2.2.1⟩

/-- Combined state of a transform stream: its readable side, its writable
side, the transform backpressure flag and backpressure-change settlement
(living in the transform heap `tHeap`), and the flag recording that the
transform controller algorithms were cleared.  Field names follow the internal
slots of the `TransformStream` class. -/
structure TransformStreamState where
  readable : ReadableState
  writable : WritableState
  backpressure : Bool
  backpressureChangePromise : Option Nat
  tHeap : Heap
  controllerAlgorithmsCleared : Bool
deriving DecidableEq

/-- Translation of `TransformStreamSetBackpressure`: resolve the current
backpressure-change settlement (when one exists) and install a fresh pending
one, then record the new backpressure value. -/
def TransformStreamSetBackpressure (s : TransformStreamState) (backpressure : Bool) :
    TransformStreamState :=
  let h1 :=
    match s.backpressureChangePromise with
    | some id => settleAt s.tHeap id (.fulfilled .undef)
    | none => s.tHeap
  let r := newPromise h1
  { s with tHeap := r.1, backpressureChangePromise := some r.2,
           backpressure := backpressure }

/-- Translation of `TransformStreamErrorWritableAndUnblockWrite`. -/
def TransformStreamErrorWritableAndUnblockWrite (abortOutcome : Except JSVal Unit)
    (s : TransformStreamState) (e : JSVal) : TransformStreamState :=
  let s1 : TransformStreamState := { s with controllerAlgorithmsCleared := true }
  let s2 : TransformStreamState :=
    { s1 with writable :=
        (WritableStreamDefaultControllerErrorIfNeeded abortOutcome s1.writable e) }
  if s2.backpressure = true then TransformStreamSetBackpressure s2 false else s2

/-- Translation of `TransformStreamError`: error the readable side (a no-op if
it is no longer readable), then error the writable side and unblock writes. -/
def TransformStreamError (abortOutcome : Except JSVal Unit) (s : TransformStreamState)
    (e : JSVal) : TransformStreamState :=
  TransformStreamErrorWritableAndUnblockWrite abortOutcome
    { s with readable := ReadableStreamDefaultControllerError s.readable e } e

/-- Translation of `TransformStreamDefaultSinkCloseAlgorithm`.  The settled
outcome of the flush algorithm is the parameter `flushOutcome`; the
`transformPromiseWith` continuations are dispatched on it.  The second
component is the settlement returned to the sink close caller. -/
def TransformStreamDefaultSinkCloseAlgorithm (flushOutcome : Except JSVal Unit)
    (abortOutcome : Except JSVal Unit) (s : TransformStreamState) :
    TransformStreamState × Settlement :=
  let s0 : TransformStreamState := { s with controllerAlgorithmsCleared := true }
  match flushOutcome with
  | .ok _ =>
      if s0.readable.state = .errored then (s0, .rejected s0.readable.storedError)
      else
        let s1 :=
          if ReadableStreamDefaultControllerCanCloseOrEnqueue s0.readable = true then
            { s0 with readable := ReadableStreamDefaultControllerClose s0.readable }
          else s0
        (s1, .fulfilled .undef)
  | .error r =>
      let s1 := TransformStreamError abortOutcome s0 r
      (s1, .rejected s1.readable.storedError)

/-- Translation of `TransformStreamDefaultSourcePullAlgorithm`: flip
backpressure to false (resolving the old settlement and installing a fresh
pending one) and return the current backpressure-change settlement, which is
the freshly installed one. -/
def TransformStreamDefaultSourcePullAlgorithm (s : TransformStreamState) :
    TransformStreamState × Option Nat :=
  let s1 := TransformStreamSetBackpressure s false
  (s1, s1.backpressureChangePromise)

theorem settleAt_length (h : Heap) (id : Nat) (st : Settlement) :
    (settleAt h id st).length = h.length := by
  unfold settleAt
  cases hg : h.get? id with
  | none => rfl
  | some s0 => cases s0 <;> simp

/-- A concrete transform stream just after construction: backpressure is true
and the backpressure-change settlement is pending. -/
def tsLive : TransformStreamState :=
  { readable := rsUnlocked, writable := wsWritable, backpressure := true,
    backpressureChangePromise := some 0, tHeap := [.pending],
    controllerAlgorithmsCleared := false }

/-- C1 counterexample: on a freshly constructed transform stream, the source
pull algorithm does not return the prior backpressure-change settlement; it
returns the freshly installed one, which is still pending when returned. -/
theorem TransformStreamDefaultSourcePullAlgorithm_counterexample :
    ((TransformStreamDefaultSourcePullAlgorithm tsLive).2 ≠
      tsLive.backpressureChangePromise) ∧
    ((TransformStreamDefaultSourcePullAlgorithm tsLive).2 = some 1) ∧
    ((TransformStreamDefaultSourcePullAlgorithm tsLive).1.tHeap.get? 1 =
      some .pending) := by
  decide

/-- C1 amended: at entry backpressure is true; the source pull algorithm sets
backpressure to false and resolves the prior backpressure-change settlement
(unblocking the sink side), but the settlement it returns is the freshly
installed replacement, which is still pending when returned (it blocks the
next pull until backpressure returns). -/
theorem TransformStreamDefaultSourcePullAlgorithm_spec (s : TransformStreamState)
    (pid : Nat) (_hbp : s.backpressure = true)
    (hprom : s.backpressureChangePromise = some pid)
    (hpend : s.tHeap.get? pid = some .pending) :
    (TransformStreamDefaultSourcePullAlgorithm s).1.backpressure = false ∧
    (TransformStreamDefaultSourcePullAlgorithm s).1.tHeap.get? pid =
      some (.fulfilled .undef) ∧
    (TransformStreamDefaultSourcePullAlgorithm s).2 = some s.tHeap.length ∧
    (TransformStreamDefaultSourcePullAlgorithm s).2 ≠ some pid ∧
    (TransformStreamDefaultSourcePullAlgorithm s).1.tHeap.get? s.tHeap.length =
      some .pending := by
  have hlt : pid < s.tHeap.length := (List.get?_eq_some.1 hpend).choose
  unfold TransformStreamDefaultSourcePullAlgorithm TransformStreamSetBackpressure
    newPromise newPromiseWith
  simp only [hprom]
  refine ⟨trivial, ?_, ?_, ?_, ?_⟩
  · rw [List.get?_append (by rw [settleAt_length]; exact hlt)]
    exact settleAt_get_self _ _ _ hpend
  · simp [settleAt_length]
  · simp [settleAt_length]
    omega
  · have hlen : (settleAt s.tHeap pid (.fulfilled .undef)).length = s.tHeap.length :=
      settleAt_length _ _ _
    rw [← hlen]
    exact List.get?_concat_length _ _

/-- Witness for the amended C1 at a concrete transform stream. -/
theorem TransformStreamDefaultSourcePullAlgorithm_spec_witness :
    (TransformStreamDefaultSourcePullAlgorithm tsLive).1.backpressure = false ∧
    (TransformStreamDefaultSourcePullAlgorithm tsLive).1.tHeap.get? 0 =
      some (.fulfilled .undef) ∧
    (TransformStreamDefaultSourcePullAlgorithm tsLive).2 = some 1 := by
  have h := TransformStreamDefaultSourcePullAlgorithm_spec tsLive 0 (by decide) (by decide)
    (by decide)
  exact ⟨h.1, h.2.1, h.2.2.1⟩

theorem controllerError_noop (s : ReadableState) (e : JSVal) (h : s.state ≠ .readable) :
    ReadableStreamDefaultControllerError s e = s := by
  unfold ReadableStreamDefaultControllerError
  rw [if_pos h]

theorem transformStreamError_readable (o : Except JSVal Unit) (s : TransformStreamState)
    (e : JSVal) :
    (TransformStreamError o s e).readable =
      ReadableStreamDefaultControllerError s.readable e := by
  unfold TransformStreamError TransformStreamErrorWritableAndUnblockWrite
    TransformStreamSetBackpressure
  by_cases hb : s.backpressure = true <;> simp [hb]

theorem transformStreamError_writable (o : Except JSVal Unit) (s : TransformStreamState)
    (e : JSVal) :
    (TransformStreamError o s e).writable =
      WritableStreamDefaultControllerErrorIfNeeded o s.writable e := by
  unfold TransformStreamError TransformStreamErrorWritableAndUnblockWrite
    TransformStreamSetBackpressure
  by_cases hb : s.backpressure = true <;> simp [hb]

/-- A readable stream that has been closed with a close request. -/
def rsClosedSide : ReadableState :=
  { rsUnlocked with state := .closed, closeRequested := true, algorithmsCleared := true }

/-- A writable stream erroring with a terminated error while its sink close is
in flight. -/
def wsTerminated : WritableState :=
  { wsWritable with
      state := .erroring,
      storedError := .typeError "TransformStream terminated",
      inFlightCloseRequest := some 0,
      heap := [.pending] }

/-- A transform stream whose readable side has already been closed (for
example by `terminate()` from inside the flush algorithm) while the sink close
is in flight. -/
def tsReadableClosed : TransformStreamState :=
  { readable := rsClosedSide, writable := wsTerminated,
    backpressure := false, backpressureChangePromise := some 1,
    tHeap := [.fulfilled .undef, .pending], controllerAlgorithmsCleared := true }

/-- C3 counterexample: when the readable side is already closed at the moment
the flush algorithm rejects, the readable side stays closed (it is not
errored) and the settlement returned by the sink close algorithm rejects with
the readable side stored error, which is undefined rather than the flush
rejection reason. -/
theorem TransformStreamDefaultSinkCloseAlgorithm_counterexample :
    ((TransformStreamDefaultSinkCloseAlgorithm (.error (.str "boom")) (.ok ())
        tsReadableClosed).1.readable.state = .closed) ∧
    ((TransformStreamDefaultSinkCloseAlgorithm (.error (.str "boom")) (.ok ())
        tsReadableClosed).2 ≠ .rejected (.str "boom")) ∧
    ((TransformStreamDefaultSinkCloseAlgorithm (.error (.str "boom")) (.ok ())
        tsReadableClosed).2 = .rejected .undef) := by
  decide

/-- C3 amended: when the flush algorithm rejects with r, the sink close
algorithm errors the transform: the readable side becomes errored with r iff
it was still readable (otherwise it is left as it was), the writable side
begins erroring (or finishes erroring) iff it was still writable, and the
returned settlement rejects with the readable side stored error at that
moment, which is r exactly in the case where the readable side was still
readable. -/
theorem TransformStreamDefaultSinkCloseAlgorithm_flushRejected (flushReason : JSVal)
    (abortOutcome : Except JSVal Unit) (s : TransformStreamState) :
    ((TransformStreamDefaultSinkCloseAlgorithm (.error flushReason) abortOutcome s).2 =
      .rejected (TransformStreamDefaultSinkCloseAlgorithm (.error flushReason) abortOutcome
        s).1.readable.storedError) ∧
    (s.readable.state = .readable →
      (TransformStreamDefaultSinkCloseAlgorithm (.error flushReason) abortOutcome
        s).1.readable.state = .errored ∧
      (TransformStreamDefaultSinkCloseAlgorithm (.error flushReason) abortOutcome
        s).1.readable.storedError = flushReason ∧
      (TransformStreamDefaultSinkCloseAlgorithm (.error flushReason) abortOutcome s).2 =
        .rejected flushReason) ∧
    (s.writable.state = .writable →
      ((TransformStreamDefaultSinkCloseAlgorithm (.error flushReason) abortOutcome
          s).1.writable.state = .erroring ∨
       (TransformStreamDefaultSinkCloseAlgorithm (.error flushReason) abortOutcome
          s).1.writable.state = .errored)) ∧
    (s.readable.state ≠ .readable →
      (TransformStreamDefaultSinkCloseAlgorithm (.error flushReason) abortOutcome
        s).1.readable.state = s.readable.state ∧
      (TransformStreamDefaultSinkCloseAlgorithm (.error flushReason) abortOutcome
        s).1.readable.storedError = s.readable.storedError) := by
  have heq : TransformStreamDefaultSinkCloseAlgorithm (.error flushReason) abortOutcome s =
      (TransformStreamError abortOutcome
        { s with controllerAlgorithmsCleared := true } flushReason,
       .rejected (TransformStreamError abortOutcome
         { s with controllerAlgorithmsCleared := true } flushReason).readable.storedError) :=
    rfl
  rw [heq]
  dsimp only
  refine ⟨rfl, ?_, ?_, ?_⟩
  · intro hr
    rw [transformStreamError_readable]
    dsimp only
    have h := controllerError_errored s.readable flushReason hr
    exact ⟨h.1, h.2, by rw [h.2]⟩
  · intro hw
    rw [transformStreamError_writable]
    dsimp only
    exact (errorIfNeeded_writable abortOutcome s.writable flushReason hw).2.2.elim
      (fun h => Or.inl h.1) (fun h => Or.inr h.1)
  · intro hr
    rw [transformStreamError_readable]
    dsimp only
    rw [controllerError_noop _ _ hr]
    exact ⟨rfl, rfl⟩

/-- Witness for the amended C3 at a concrete live transform stream. -/
theorem TransformStreamDefaultSinkCloseAlgorithm_flushRejected_witness :
    (TransformStreamDefaultSinkCloseAlgorithm (.error (.str "boom")) (.ok ())
      tsLive).1.readable.state = .errored ∧
    (TransformStreamDefaultSinkCloseAlgorithm (.error (.str "boom")) (.ok ())
      tsLive).2 = .rejected (.str "boom") ∧
    ((TransformStreamDefaultSinkCloseAlgorithm (.error (.str "boom")) (.ok ())
        tsLive).1.writable.state = .erroring ∨
     (TransformStreamDefaultSinkCloseAlgorithm (.error (.str "boom")) (.ok ())
        tsLive).1.writable.state = .errored) := by
  have h := TransformStreamDefaultSinkCloseAlgorithm_flushRejected (.str "boom") (.ok ())
    tsLive
  exact ⟨(h.2.1 (by decide)).1, (h.2.1 (by decide)).2.2, h.2.2.1 (by decide)⟩

end WebStreams
